import Mathlib

/-!
Shallow embedding of the rn-range-slider core (src/index.tsx) over ℚ.

The repository ships only `src/index.tsx`; the `helpers` and `hooks` modules it
imports are not under `src/`, so the helper functions used by the slider
(`clamp`, `getValueForPosition`, `isLowCloser`) are modelled from the spec
(§4.1, §4.2, §7) and marked as such in their doc comments.  Everything else is
translated from `src/index.tsx` directly.  Numbers are modelled as rationals.
-/

namespace RnRangeSlider

/-- Modelled from the spec: `clamp` from the missing `helpers` module.
Spec §7: out-of-range inputs "are silently clamped"; §4.1 requires clamping
"to `[min, max]`".  The standard clamp: raise to the lower bound, then cap at
the upper bound. -/
def clamp (value mn mx : ℚ) : ℚ := min (max value mn) mx

/-- Modelled from the spec: `getValueForPosition` from the missing `helpers`
module.  Spec §4.1: "inverse linear interpolation followed by rounding to the
nearest multiple of `step` from `min`.  Must clamp the raw interpolation
result to `[min, max]` before rounding". -/
def getValueForPosition (positionInView containerWidth thumbWidth mn mx step : ℚ) : ℚ :=
  let raw := mn + (positionInView - thumbWidth / 2) / (containerWidth - thumbWidth) * (mx - mn)
  let clamped := clamp raw mn mx
  mn + (round ((clamped - mn) / step) : ℤ) * step

/-- Modelled from the spec: `isLowCloser` from the missing `helpers` module.
Spec §4.2: "selects the thumb whose center is closer (… absolute distance) to
the touch point; ties broken deterministically toward the low thumb". -/
def isLowCloser (downX lowPosition highPosition : ℚ) : Bool :=
  |downX - lowPosition| ≤ |downX - highPosition|

/-- The linear value→pixel interpolation used verbatim at
`src/index.tsx:110-117` (updateThumbs), `:233-238` (onPanResponderGrant) and
`:264-266` (handlePositionChange):
`((value - min) / (max - min)) * (containerWidth - thumbWidth)`. -/
def positionForValue (value containerWidth thumbWidth mn mx : ℚ) : ℚ :=
  (value - mn) / (mx - mn) * (containerWidth - thumbWidth)

/-- The value store `inPropsRef.current` of `src/index.tsx`: current low/high
plus the domain bounds and step. -/
structure InProps where
  low : ℚ
  high : ℚ
  min : ℚ
  max : ℚ
  step : ℚ
deriving Repr, DecidableEq

/-- `gestureStateRef.current` of `src/index.tsx:88`:
`{isLow: true, lastValue: 0, lastPosition: 0}`. -/
structure GestureState where
  isLow : Bool
  lastValue : ℚ
  lastPosition : ℚ
deriving Repr, DecidableEq

/-- The initial value of `gestureStateRef` (`src/index.tsx:88`). -/
def initialGestureState : GestureState := ⟨true, 0, 0⟩

/-- The values `handlePositionChange` closes over for the duration of one drag
session (`src/index.tsx:212-288`): the active-thumb flag `isLow`, the captured
`containerWidth` and `thumbWidth`, and the `minRange` prop. -/
structure Session where
  isLow : Bool
  containerWidth : ℚ
  thumbWidth : ℚ
  minRange : ℚ
deriving Repr, DecidableEq

/-- The clamped value computed for a move event, `src/index.tsx:246-260`:
`minValue = isLow ? min : low + minRange`, `maxValue = isLow ? high - minRange : max`,
`value = clamp(getValueForPosition(...), minValue, maxValue)`. -/
def computedMoveValue (s : Session) (p : InProps) (positionInView : ℚ) : ℚ :=
  let minValue := if s.isLow then p.min else p.low + s.minRange
  let maxValue := if s.isLow then p.high - s.minRange else p.max
  clamp (getValueForPosition positionInView s.containerWidth s.thumbWidth p.min p.max p.step)
    minValue maxValue

/-- The effects of one `handlePositionChange` call: the new gesture-session
state, the new value store, and the emitted side effects — the Animated thumb
position set (`(isLow ? lowThumbX : highThumbX).setValue(absolutePosition)`),
the `onValueChanged(low, high, true)` callback payload, the label/notch
follower update `(lastPosition, value)`, and whether `updateSelectedRail` ran. -/
structure MoveResult where
  gesture : GestureState
  props : InProps
  thumbSet : Option (Bool × ℚ)
  valueChanged : Option (ℚ × ℚ × Bool)
  followerUpdate : Option (ℚ × ℚ)
  railUpdated : Bool
deriving Repr, DecidableEq

/-- `handlePositionChange` of `src/index.tsx:244-282`.  Computes the clamped
value; if it equals `gestureStateRef.current.lastValue` it returns with no
effect; otherwise it records `lastValue`/`lastPosition`, moves the active
thumb to `absolutePosition = ((value - min) / (max - min)) * (containerWidth -
thumbWidth)`, fires `onValueChanged(isLow ? value : low, isLow ? high : value,
true)`, writes the value store via `setLow`/`setHigh`, updates the label/notch
followers and the selected rail. -/
def handlePositionChange (s : Session) (g : GestureState) (p : InProps)
    (positionInView : ℚ) : MoveResult :=
  let value := computedMoveValue s p positionInView
  if g.lastValue = value then
    ⟨g, p, none, none, none, false⟩
  else
    let availableSpace := s.containerWidth - s.thumbWidth
    let absolutePosition := (value - p.min) / (p.max - p.min) * availableSpace
    let g2 : GestureState :=
      { g with lastValue := value, lastPosition := absolutePosition + s.thumbWidth / 2 }
    let p2 : InProps := if s.isLow then { p with low := value } else { p with high := value }
    ⟨g2, p2, some (s.isLow, absolutePosition),
      some (if s.isLow then value else p.low, if s.isLow then p.high else value, true),
      some (absolutePosition + s.thumbWidth / 2, value), true⟩

/-- Number of `onValueChanged` invocations a single move produced (0 or 1). -/
def valueChangedCount (r : MoveResult) : ℕ :=
  match r.valueChanged with
  | none => 0
  | some _ => 1

/-- Iterated move handling: a drag session (or several, each contributing its
captured `Session` data) processes positions in order, threading the gesture
state and the value store. -/
def runMoves : List (Session × ℚ) → GestureState × InProps → GestureState × InProps
  | [], st => st
  | (s, pos) :: rest, (g, p) =>
    let r := handlePositionChange s g p pos
    runMoves rest (r.gesture, r.props)

/-- The effects of one `updateThumbs` call (`src/index.tsx:101-131`): the
pixel offsets written to the two thumbs' Animated values, whether the selected
rail was recomputed, and the `onValueChanged(low, high, false)` payload. -/
structure UpdateThumbsResult where
  lowThumbX : Option ℚ
  highThumbX : Option ℚ
  railUpdated : Bool
  valueChanged : Option (ℚ × ℚ × Bool)
deriving Repr, DecidableEq

/-- `updateThumbs` of `src/index.tsx:101-131`.  Returns with no effect when
`!thumbWidth || !containerWidth`; otherwise sets the high thumb position
(unless `disableRange`), the low thumb position, recomputes the selected rail
and fires `onValueChanged(low, high, false)`. -/
def updateThumbs (disableRange : Bool) (containerWidth thumbWidth : ℚ)
    (p : InProps) : UpdateThumbsResult :=
  if thumbWidth = 0 ∨ containerWidth = 0 then
    ⟨none, none, false, none⟩
  else
    ⟨some (positionForValue p.low containerWidth thumbWidth p.min p.max),
      if disableRange then none
        else some (positionForValue p.high containerWidth thumbWidth p.min p.max),
      true, some (p.low, p.high, false)⟩

/-- A notification callback invocation, in emission order: `onSliderTouchStart`,
`onValueChanged`, `onSliderTouchEnd` (`src/index.tsx:49-51`). -/
inductive CallbackEv where
  | touchStart (low high : ℚ)
  | valueChanged (low high : ℚ) (byUser : Bool)
  | touchEnd (low high : ℚ)
deriving Repr, DecidableEq

/-- The events one `MoveResult` contributes to the callback log. -/
def moveEvents (r : MoveResult) : List CallbackEv :=
  match r.valueChanged with
  | none => []
  | some (l, h, b) => [CallbackEv.valueChanged l h b]

/-- `pointerX.removeAllListeners()` (`src/index.tsx:284`): drops every listener
registered on the shared pointer stream.  Listeners are identified by the id of
the drag session that registered them. -/
def removeAllListeners (_ls : List ℕ) : List ℕ := []

/-- `pointerX.addListener(...)` (`src/index.tsx:285-288`): appends one listener. -/
def addListener (sid : ℕ) (ls : List ℕ) : List ℕ := ls ++ [sid]

/-- Mutable component state threaded through the responder handlers: the
`isPressed` React state, `gestureStateRef.current`, `inPropsRef.current`, and
the listener set of the shared `pointerX` stream. -/
structure CompState where
  pressed : Bool
  gesture : GestureState
  props : InProps
  listeners : List ℕ
deriving Repr, DecidableEq

/-- The outcome of one `onPanResponderGrant` call. -/
structure GrantResult where
  state : CompState
  events : List CallbackEv
  sessionStarted : Bool
deriving Repr, DecidableEq

/-- `onPanResponderGrant` of `src/index.tsx:212-289`.  Returns immediately when
`disabled` or when `numberActiveTouches > 1`; otherwise sets `pressed`, emits
`onSliderTouchStart(low, high)`, selects the active thumb
(`disableRange || isLowCloser(downX, lowPosition, highPosition)` where each
position is `thumbWidth / 2 + positionForValue(...)`), processes the down
point itself through `handlePositionChange(downX)`, and replaces all listeners
on `pointerX` with this session's listener. -/
def onPanResponderGrant (disabled disableRange : Bool) (minRange : ℚ)
    (containerWidth thumbWidth : ℚ) (downX : ℚ) (numberActiveTouches : ℕ)
    (sid : ℕ) (st : CompState) : GrantResult :=
  if disabled then ⟨st, [], false⟩
  else if numberActiveTouches > 1 then ⟨st, [], false⟩
  else
    let p := st.props
    let lowPosition := thumbWidth / 2 +
      positionForValue p.low containerWidth thumbWidth p.min p.max
    let highPosition := thumbWidth / 2 +
      positionForValue p.high containerWidth thumbWidth p.min p.max
    let isLow := disableRange || isLowCloser downX lowPosition highPosition
    let g1 : GestureState := { st.gesture with isLow := isLow }
    let s : Session := ⟨isLow, containerWidth, thumbWidth, minRange⟩
    let r := handlePositionChange s g1 p downX
    ⟨⟨true, r.gesture, r.props, addListener sid (removeAllListeners st.listeners)⟩,
      CallbackEv.touchStart p.low p.high :: moveEvents r, true⟩

/-- `onPanResponderMove` of `src/index.tsx:291-293`: the move handler is
`undefined` when `disabled`, and the `Animated.event` pipe into `pointerX`
otherwise. -/
def onPanResponderMoveDefined (disabled : Bool) : Bool := !disabled

/-- `onPanResponderRelease` of `src/index.tsx:295-299`: clears `pressed` and
emits `onSliderTouchEnd(low, high)`; it touches neither `gestureStateRef` nor
the listeners. -/
def onPanResponderRelease (st : CompState) : CompState × List CallbackEv :=
  ({ st with pressed := false }, [CallbackEv.touchEnd st.props.low st.props.high])

/-- `onPanResponderTerminate: trueFunc` (`src/index.tsx:204`): the termination
handler is the constant `() => true`, which performs no state change and emits
nothing. -/
def onPanResponderTerminate (st : CompState) : CompState × List CallbackEv :=
  (st, [])

/-- `onPanResponderTerminationRequest: falseFunc` (`src/index.tsx:203`): the
handler is the constant `() => false`; it ignores every bit of component
state, in particular whether a drag has started (`isPressed`). -/
def onPanResponderTerminationRequest (_isPressed : Bool) : Bool := false

/-- A full touch-down/release pair: the grant handler followed by the release
handler, with the concatenated callback log. -/
def touchDownReleasePair (disabled disableRange : Bool) (minRange : ℚ)
    (containerWidth thumbWidth : ℚ) (downX : ℚ) (numberActiveTouches : ℕ)
    (sid : ℕ) (st : CompState) : CompState × List CallbackEv :=
  let gr := onPanResponderGrant disabled disableRange minRange containerWidth
    thumbWidth downX numberActiveTouches sid st
  let rel := onPanResponderRelease gr.state
  (rel.1, gr.events ++ rel.2)

/-- One touch-down grant as seen by the listener set alone
(`src/index.tsx:212-219, 283-288`): nothing when the early returns fire,
`removeAllListeners` then `addListener` otherwise. -/
def grantListeners (disabled : Bool) (numberActiveTouches : ℕ) (sid : ℕ)
    (ls : List ℕ) : List ℕ :=
  if disabled then ls
  else if numberActiveTouches > 1 then ls
  else addListener sid (removeAllListeners ls)

/-- The listener set after a sequence of touch-down grants, each given as
`(disabled, numberActiveTouches, sid)`. -/
def runGrantListeners : List (Bool × ℕ × ℕ) → List ℕ → List ℕ
  | [], ls => ls
  | (d, n, sid) :: rest, ls => runGrantListeners rest (grantListeners d n sid ls)

/-- The id of the most recently started session in a sequence of grants, each
given as `(disabled, numberActiveTouches, sid)`: the last grant that passed
the early returns of `src/index.tsx:213-219`. -/
def lastStartedSession : List (Bool × ℕ × ℕ) → Option ℕ
  | [] => none
  | (d, n, sid) :: rest =>
    match lastStartedSession rest with
    | some k => some k
    | none => if d = false ∧ n ≤ 1 then some sid else none

/-- The guard of the external-sync effect (`src/index.tsx:133-148`):
`(lowProp !== undefined && lowProp !== lowPrev) || (highProp !== undefined &&
highProp !== highPrev)`, with `undefined` modelled as `none`. -/
def externalSyncTriggers (lowProp highProp : Option ℚ) (lowPrev highPrev : ℚ) : Bool :=
  (match lowProp with
    | some l => decide (l ≠ lowPrev)
    | none => false) ||
  (match highProp with
    | some h => decide (h ≠ highPrev)
    | none => false)

/-- The external-sync effect (`src/index.tsx:133-148`) acting on the component
state: it runs `updateThumbs` exactly when its guard holds, and writes none of
`isPressed`, `gestureStateRef`, `inPropsRef` or the pointer listeners
(`updateThumbs` only sets Animated values, updates the rail, and fires
`onValueChanged(low, high, false)`). -/
def externalSyncEffect (lowProp highProp : Option ℚ) (lowPrev highPrev : ℚ)
    (disableRange : Bool) (containerWidth thumbWidth : ℚ) (st : CompState) :
    CompState × Option UpdateThumbsResult :=
  if externalSyncTriggers lowProp highProp lowPrev highPrev then
    (st, some (updateThumbs disableRange containerWidth thumbWidth st.props))
  else (st, none)

/-- The range-state invariant of spec §3, with a configured minimum
separation `mr`. -/
def RangeInvariant (mr : ℚ) (p : InProps) : Prop :=
  p.min ≤ p.low ∧ p.low ≤ p.high ∧ p.high ≤ p.max ∧ mr ≤ p.high - p.low

/-! ## Helper lemmas -/

theorem clamp_mem (v lo hi : ℚ) (h : lo ≤ hi) :
    lo ≤ clamp v lo hi ∧ clamp v lo hi ≤ hi := by
  unfold clamp
  exact ⟨le_min (le_max_right v lo) h, min_le_right _ _⟩

theorem computedMoveValue_bounds (s : Session) (p : InProps) (pos : ℚ)
    (h : (if s.isLow then p.min else p.low + s.minRange) ≤
      (if s.isLow then p.high - s.minRange else p.max)) :
    (if s.isLow then p.min else p.low + s.minRange) ≤ computedMoveValue s p pos ∧
    computedMoveValue s p pos ≤ (if s.isLow then p.high - s.minRange else p.max) := by
  unfold computedMoveValue
  exact clamp_mem _ _ _ h

/-! ## C1: session-specific clamping of move values -/

/-- Claim C1: during a drag session, every move-computed value for the active
thumb is clamped to session-specific bounds: if the active thumb is low, the
value lies in `[min, high - minRange]`; if the active thumb is high, the value
lies in `[low + minRange, max]`, where `low`/`high` are the sibling thumb's
current stored values.  Stated under the range invariant of spec §3
(`min ≤ low`, `high ≤ max`, `high - low ≥ minRange`), which makes the two
session bounds well ordered. -/
theorem move_value_clamped (s : Session) (p : InProps) (pos : ℚ)
    (hlow : p.min ≤ p.low) (hhigh : p.high ≤ p.max)
    (hsep : s.minRange ≤ p.high - p.low) :
    (s.isLow = true →
      p.min ≤ computedMoveValue s p pos ∧
      computedMoveValue s p pos ≤ p.high - s.minRange) ∧
    (s.isLow = false →
      p.low + s.minRange ≤ computedMoveValue s p pos ∧
      computedMoveValue s p pos ≤ p.max) := by
  constructor
  · intro hL
    have h := computedMoveValue_bounds s p pos (by simp [hL]; linarith)
    simpa [hL] using h
  · intro hL
    have h := computedMoveValue_bounds s p pos (by simp [hL]; linarith)
    simpa [hL] using h

/-- Witness for C1 at a concrete input. -/
theorem move_value_clamped_witness :
    ((0 : ℚ) ≤ 2 ∧ (8 : ℚ) ≤ 10 ∧ (1 : ℚ) ≤ 8 - 2) ∧
    ((0 : ℚ) ≤ computedMoveValue ⟨true, 100, 10, 1⟩ ⟨2, 8, 0, 10, 1⟩ 50 ∧
      computedMoveValue ⟨true, 100, 10, 1⟩ ⟨2, 8, 0, 10, 1⟩ 50 ≤ 8 - 1) :=
  ⟨⟨by norm_num, by norm_num, by norm_num⟩,
    (move_value_clamped ⟨true, 100, 10, 1⟩ ⟨2, 8, 0, 10, 1⟩ 50
      (by norm_num) (by norm_num) (by norm_num)).1 rfl⟩

/-! ## C2: the range invariant is preserved by drag-driven updates -/

theorem rangeInvariant_step (mr : ℚ) (hmr : 0 ≤ mr) (s : Session)
    (hs : s.minRange = mr) (g : GestureState) (p : InProps) (pos : ℚ)
    (hinv : RangeInvariant mr p) :
    RangeInvariant mr (handlePositionChange s g p pos).props := by
  obtain ⟨h1, h2, h3, h4⟩ := hinv
  unfold handlePositionChange
  by_cases hv : g.lastValue = computedMoveValue s p pos
  · rw [if_pos hv]
    exact ⟨h1, h2, h3, h4⟩
  · rw [if_neg hv]
    dsimp only
    by_cases hL : s.isLow = true
    · have hb := computedMoveValue_bounds s p pos (by simp [hL, hs]; linarith)
      rw [if_pos hL, if_pos hL] at hb
      rw [hs] at hb
      rw [if_pos hL]
      simp only [RangeInvariant]
      exact ⟨hb.1, by linarith [hb.2], h3, by linarith [hb.2]⟩
    · have hb := computedMoveValue_bounds s p pos (by simp [hL, hs]; linarith)
      rw [if_neg hL, if_neg hL] at hb
      rw [hs] at hb
      rw [if_neg hL]
      simp only [RangeInvariant]
      exact ⟨h1, by linarith [hb.1], hb.2, by linarith [hb.1]⟩

theorem runMoves_invariant (mr : ℚ) (hmr : 0 ≤ mr) (moves : List (Session × ℚ))
    (hm : ∀ m ∈ moves, (m.1).minRange = mr) (g : GestureState) (p : InProps)
    (h : RangeInvariant mr p) : RangeInvariant mr (runMoves moves (g, p)).2 := by
  induction moves generalizing g p with
  | nil => simpa [runMoves] using h
  | cons m rest ih =>
    obtain ⟨s, pos⟩ := m
    have hs : s.minRange = mr := hm (s, pos) (List.mem_cons_self _ _)
    simp only [runMoves]
    exact ih (fun m hm2 => hm m (List.mem_cons_of_mem _ hm2)) _ _
      (rangeInvariant_step mr hmr s hs g p pos h)

/-- Claim C2: for every sequence of drag-driven updates starting from a state
satisfying `min ≤ low ≤ high ≤ max` and `high - low ≥ minRange`, after each
accepted update the stored values still satisfy `low ≤ high` and
`high - low ≥ minRange`.  (Every prefix of a sequence is itself a sequence, so
the statement over the final state covers each intermediate update.  The
minimum separation `mr` is nonnegative, as spec §3/§7 require of a well-formed
configuration.) -/
theorem drag_updates_preserve_range_invariant (mr : ℚ) (hmr : 0 ≤ mr)
    (moves : List (Session × ℚ)) (hm : ∀ m ∈ moves, (m.1).minRange = mr)
    (g : GestureState) (p : InProps)
    (h1 : p.min ≤ p.low) (h2 : p.low ≤ p.high) (h3 : p.high ≤ p.max)
    (h4 : mr ≤ p.high - p.low) :
    (runMoves moves (g, p)).2.low ≤ (runMoves moves (g, p)).2.high ∧
    mr ≤ (runMoves moves (g, p)).2.high - (runMoves moves (g, p)).2.low := by
  have h := runMoves_invariant mr hmr moves hm g p ⟨h1, h2, h3, h4⟩
  exact ⟨h.2.1, h.2.2.2⟩

/-- Witness for C2 at a concrete two-move drag. -/
theorem drag_updates_preserve_range_invariant_witness :
    ((0 : ℚ) ≤ 1 ∧ (0 : ℚ) ≤ 2 ∧ (2 : ℚ) ≤ 8 ∧ (8 : ℚ) ≤ 10 ∧ (1 : ℚ) ≤ 8 - 2) ∧
    ((runMoves [(⟨true, 100, 10, 1⟩, 30), (⟨false, 100, 10, 1⟩, 70)]
        (initialGestureState, ⟨2, 8, 0, 10, 1⟩)).2.low ≤
      (runMoves [(⟨true, 100, 10, 1⟩, 30), (⟨false, 100, 10, 1⟩, 70)]
        (initialGestureState, ⟨2, 8, 0, 10, 1⟩)).2.high ∧
      (1 : ℚ) ≤ (runMoves [(⟨true, 100, 10, 1⟩, 30), (⟨false, 100, 10, 1⟩, 70)]
        (initialGestureState, ⟨2, 8, 0, 10, 1⟩)).2.high -
        (runMoves [(⟨true, 100, 10, 1⟩, 30), (⟨false, 100, 10, 1⟩, 70)]
        (initialGestureState, ⟨2, 8, 0, 10, 1⟩)).2.low) :=
  ⟨⟨by norm_num, by norm_num, by norm_num, by norm_num, by norm_num⟩,
    drag_updates_preserve_range_invariant 1 (by norm_num)
      [(⟨true, 100, 10, 1⟩, 30), (⟨false, 100, 10, 1⟩, 70)]
      (by intro m hm; simp [List.mem_cons] at hm; rcases hm with h | h <;> simp [h])
      initialGestureState ⟨2, 8, 0, 10, 1⟩
      (by norm_num) (by norm_num) (by norm_num) (by norm_num)⟩

/-! ## C3: de-duplication of equal move values -/

theorem lastValue_after_move (s : Session) (g : GestureState) (p : InProps) (pos : ℚ) :
    (handlePositionChange s g p pos).gesture.lastValue = computedMoveValue s p pos := by
  unfold handlePositionChange
  by_cases hv : g.lastValue = computedMoveValue s p pos
  · rw [if_pos hv]
    exact hv
  · rw [if_neg hv]

theorem valueChangedCount_le_one (r : MoveResult) : valueChangedCount r ≤ 1 := by
  unfold valueChangedCount
  cases r.valueChanged <;> simp

/-- Claim C3: if a newly computed move value equals the session's last
recorded value, all downstream work is skipped — no thumb position set, no
value-store update, no follower/rail update, no change callback — and hence
two consecutive move events producing the same stepped value invoke the
change callback at most once. -/
theorem move_dedup (s : Session) (g : GestureState) (p : InProps) (pos1 pos2 : ℚ)
    (hsame : computedMoveValue s (handlePositionChange s g p pos1).props pos2 =
      computedMoveValue s p pos1) :
    (computedMoveValue s p pos1 = g.lastValue →
      handlePositionChange s g p pos1 = ⟨g, p, none, none, none, false⟩) ∧
    (handlePositionChange s (handlePositionChange s g p pos1).gesture
      (handlePositionChange s g p pos1).props pos2).valueChanged = none ∧
    valueChangedCount (handlePositionChange s g p pos1) +
      valueChangedCount (handlePositionChange s (handlePositionChange s g p pos1).gesture
        (handlePositionChange s g p pos1).props pos2) ≤ 1 := by
  have hskip : ∀ (g' : GestureState) (p' : InProps) (pos : ℚ),
      g'.lastValue = computedMoveValue s p' pos →
      handlePositionChange s g' p' pos = ⟨g', p', none, none, none, false⟩ := by
    intro g' p' pos h
    unfold handlePositionChange
    rw [if_pos h]
  have hlast : (handlePositionChange s g p pos1).gesture.lastValue =
      computedMoveValue s (handlePositionChange s g p pos1).props pos2 := by
    rw [lastValue_after_move, hsame]
  have hsecond := hskip _ _ _ hlast
  refine ⟨fun h => hskip g p pos1 h.symm, ?_, ?_⟩
  · rw [hsecond]
  · rw [hsecond]
    have h1 := valueChangedCount_le_one (handlePositionChange s g p pos1)
    simpa [valueChangedCount] using h1

/-- Witness for C3 at a concrete input: two consecutive moves at the same
pixel position in one session. -/
theorem move_dedup_witness :
    computedMoveValue ⟨true, 100, 10, 0⟩
        (handlePositionChange ⟨true, 100, 10, 0⟩ initialGestureState ⟨2, 8, 0, 10, 1⟩ 50).props 50 =
      computedMoveValue ⟨true, 100, 10, 0⟩ ⟨2, 8, 0, 10, 1⟩ 50 ∧
    (handlePositionChange ⟨true, 100, 10, 0⟩
      (handlePositionChange ⟨true, 100, 10, 0⟩ initialGestureState ⟨2, 8, 0, 10, 1⟩ 50).gesture
      (handlePositionChange ⟨true, 100, 10, 0⟩ initialGestureState ⟨2, 8, 0, 10, 1⟩ 50).props
      50).valueChanged = none :=
  ⟨by norm_num [computedMoveValue, handlePositionChange, getValueForPosition, clamp,
      round_eq, initialGestureState],
    (move_dedup ⟨true, 100, 10, 0⟩ initialGestureState ⟨2, 8, 0, 10, 1⟩ 50 50
      (by norm_num [computedMoveValue, handlePositionChange, getValueForPosition, clamp,
        round_eq, initialGestureState])).2.1⟩

/-! ## C4: behaviour of a disabled control -/

/-- Counterexample to C4 as stated: with `disabled = true`, a touch-down /
release pair still invokes `onSliderTouchEnd(low, high)`, because
`onPanResponderRelease` (`src/index.tsx:295-299`) does not check `disabled`. -/
theorem disabled_touch_end_still_fires :
    (touchDownReleasePair true false 0 100 10 50 1 0
      ⟨false, initialGestureState, ⟨2, 8, 0, 10, 1⟩, []⟩).2 =
      [CallbackEv.touchEnd 2 8] := by
  norm_num [touchDownReleasePair, onPanResponderGrant, onPanResponderRelease]

/-- Claim C4, amended: when `disabled` is true, a touch-down never starts a
drag session (the grant handler changes no state, registers no listener and
emits nothing, and the move handler is `undefined`), and neither
`onSliderTouchStart` nor `onValueChanged` with `byUser = true` is ever
invoked as a result of that touch; however `onSliderTouchEnd(low, high)` is
still invoked on release, because the release handler does not check
`disabled`. -/
theorem disabled_blocks_all_but_touch_end (disableRange : Bool)
    (minRange containerWidth thumbWidth downX : ℚ) (numberActiveTouches sid : ℕ)
    (st : CompState) :
    onPanResponderGrant true disableRange minRange containerWidth thumbWidth
      downX numberActiveTouches sid st = ⟨st, [], false⟩ ∧
    onPanResponderMoveDefined true = false ∧
    touchDownReleasePair true disableRange minRange containerWidth thumbWidth
      downX numberActiveTouches sid st =
      ({ st with pressed := false },
        [CallbackEv.touchEnd st.props.low st.props.high]) := by
  refine ⟨rfl, rfl, ?_⟩
  simp [touchDownReleasePair, onPanResponderGrant, onPanResponderRelease]

/-! ## C5: external-sync trigger condition -/

theorem externalSyncTriggers_iff (lowProp highProp : Option ℚ) (lowPrev highPrev : ℚ) :
    externalSyncTriggers lowProp highProp lowPrev highPrev = true ↔
      (∃ l, lowProp = some l ∧ l ≠ lowPrev) ∨ (∃ h, highProp = some h ∧ h ≠ highPrev) := by
  cases lowProp <;> cases highProp <;> simp [externalSyncTriggers]

/-- Claim C5: on every render pass, the external-sync effect triggers a full
visual re-sync — recompute both thumb positions, recompute the selected-rail
extent, invoke the change callback with `byUser = false` — if and only if an
externally supplied `low` or `high` is defined and differs from the
previously observed external value; an undefined external value never
triggers it, and no drag session is created by it (the component state,
including `isPressed`, the gesture session and the pointer listeners, is
untouched).  Stated with both layout widths nonzero so that the triggered
re-sync is the full one. -/
theorem external_sync_triggers_iff_changed (lowProp highProp : Option ℚ)
    (lowPrev highPrev : ℚ) (disableRange : Bool) (containerWidth thumbWidth : ℚ)
    (st : CompState) (hcw : containerWidth ≠ 0) (htw : thumbWidth ≠ 0) :
    ((externalSyncEffect lowProp highProp lowPrev highPrev disableRange
        containerWidth thumbWidth st).2 ≠ none ↔
      (∃ l, lowProp = some l ∧ l ≠ lowPrev) ∨ (∃ h, highProp = some h ∧ h ≠ highPrev)) ∧
    (externalSyncEffect none none lowPrev highPrev disableRange
      containerWidth thumbWidth st).2 = none ∧
    (externalSyncEffect lowProp highProp lowPrev highPrev disableRange
      containerWidth thumbWidth st).1 = st ∧
    (∀ r, (externalSyncEffect lowProp highProp lowPrev highPrev disableRange
        containerWidth thumbWidth st).2 = some r →
      r.lowThumbX = some (positionForValue st.props.low containerWidth thumbWidth
        st.props.min st.props.max) ∧
      (disableRange = false → r.highThumbX = some (positionForValue st.props.high
        containerWidth thumbWidth st.props.min st.props.max)) ∧
      r.railUpdated = true ∧
      r.valueChanged = some (st.props.low, st.props.high, false)) := by
  have hno : ¬(thumbWidth = 0 ∨ containerWidth = 0) := by
    rintro (h | h) <;> [exact htw h; exact hcw h]
  refine ⟨?_, ?_, ?_, ?_⟩
  · rw [← externalSyncTriggers_iff lowProp highProp lowPrev highPrev]
    unfold externalSyncEffect
    by_cases ht : externalSyncTriggers lowProp highProp lowPrev highPrev = true
    · simp [ht]
    · simp [ht]
  · simp [externalSyncEffect, externalSyncTriggers]
  · unfold externalSyncEffect
    by_cases ht : externalSyncTriggers lowProp highProp lowPrev highPrev = true <;>
      simp [ht]
  · intro r hr
    unfold externalSyncEffect at hr
    by_cases ht : externalSyncTriggers lowProp highProp lowPrev highPrev = true
    · rw [if_pos ht] at hr
      simp only [Option.some.injEq] at hr
      subst hr
      unfold updateThumbs
      rw [if_neg hno]
      refine ⟨rfl, fun hdr => ?_, rfl, rfl⟩
      simp [hdr]
    · rw [if_neg ht] at hr
      exact absurd hr (by simp)

/-- Witness for C5 at a concrete input: external `low` changes from 20 to 50. -/
theorem external_sync_triggers_iff_changed_witness :
    ((100 : ℚ) ≠ 0 ∧ (10 : ℚ) ≠ 0) ∧
    ((externalSyncEffect (some 50) none 20 80 false 100 10
        ⟨false, initialGestureState, ⟨20, 80, 0, 100, 1⟩, []⟩).2 ≠ none ↔
      (∃ l, (some (50 : ℚ)) = some l ∧ l ≠ 20) ∨
        (∃ h, (none : Option ℚ) = some h ∧ h ≠ 80)) :=
  ⟨⟨by norm_num, by norm_num⟩,
    (external_sync_triggers_iff_changed (some 50) none 20 80 false 100 10
      ⟨false, initialGestureState, ⟨20, 80, 0, 100, 1⟩, []⟩
      (by norm_num) (by norm_num)).1⟩

/-! ## C6: pixel offset of a thumb -/

/-- Claim C6: for every value with `min ≤ value ≤ max`, the pixel offset
computed for a thumb equals `(value - min) / (max - min) * (containerWidth -
thumbWidth)`, and `0 ≤ offset ≤ containerWidth - thumbWidth` when `min < max`
and `containerWidth ≥ thumbWidth`.  The first conjunct ties the offset to the
one `updateThumbs` writes for the low thumb. -/
theorem thumb_offset_formula_and_bounds (p : InProps) (containerWidth thumbWidth : ℚ)
    (hmm : p.min < p.max) (hwid : thumbWidth ≤ containerWidth)
    (hcw : containerWidth ≠ 0) (htw : thumbWidth ≠ 0)
    (h1 : p.min ≤ p.low) (h2 : p.low ≤ p.max) :
    (updateThumbs false containerWidth thumbWidth p).lowThumbX =
      some ((p.low - p.min) / (p.max - p.min) * (containerWidth - thumbWidth)) ∧
    0 ≤ positionForValue p.low containerWidth thumbWidth p.min p.max ∧
    positionForValue p.low containerWidth thumbWidth p.min p.max ≤
      containerWidth - thumbWidth := by
  have hno : ¬(thumbWidth = 0 ∨ containerWidth = 0) := by
    rintro (h | h) <;> [exact htw h; exact hcw h]
  have hd : 0 < p.max - p.min := by linarith
  have hq0 : 0 ≤ (p.low - p.min) / (p.max - p.min) := div_nonneg (by linarith) hd.le
  have hq1 : (p.low - p.min) / (p.max - p.min) ≤ 1 := (div_le_one hd).2 (by linarith)
  have hA : 0 ≤ containerWidth - thumbWidth := by linarith
  refine ⟨?_, ?_, ?_⟩
  · unfold updateThumbs
    rw [if_neg hno]
    rfl
  · exact mul_nonneg hq0 hA
  · exact mul_le_of_le_one_left hA hq1

/-- Witness for C6 at a concrete input. -/
theorem thumb_offset_formula_and_bounds_witness :
    ((0 : ℚ) < 10 ∧ (10 : ℚ) ≤ 100 ∧ (100 : ℚ) ≠ 0 ∧ (10 : ℚ) ≠ 0 ∧
      (0 : ℚ) ≤ 2 ∧ (2 : ℚ) ≤ 10) ∧
    ((updateThumbs false 100 10 ⟨2, 8, 0, 10, 1⟩).lowThumbX =
      some ((2 - 0) / (10 - 0) * (100 - 10)) ∧
    0 ≤ positionForValue 2 100 10 0 10 ∧
    positionForValue 2 100 10 0 10 ≤ 100 - 10) :=
  ⟨⟨by norm_num, by norm_num, by norm_num, by norm_num, by norm_num, by norm_num⟩,
    thumb_offset_formula_and_bounds ⟨2, 8, 0, 10, 1⟩ 100 10
      (by norm_num) (by norm_num) (by norm_num) (by norm_num) (by norm_num) (by norm_num)⟩

/-! ## C7: termination requests -/

/-- Counterexample to C7 as stated: the termination-request handler is the
constant `falseFunc` (`src/index.tsx:203`), so even in the dragging state
(`isPressed = true`) it does not return true — the request is rejected, not
accepted. -/
theorem termination_request_not_accepted_while_dragging :
    onPanResponderTerminationRequest true ≠ true := by
  unfold onPanResponderTerminationRequest
  simp

/-- Claim C7, amended: a termination request from the host gesture system is
always rejected — the termination-request handler returns false regardless of
whether dragging has started. -/
theorem termination_request_always_rejected (isPressed : Bool) :
    onPanResponderTerminationRequest isPressed = false := rfl

/-! ## C8: ephemeral drag-session data across sessions -/

/-- Counterexample to C8 as stated: after a release from a session whose
`lastValue` is 5, the gesture data is not cleared (`lastValue` is still 5,
not the initial 0); a host-initiated termination does not even leave the
pressed state; and the first processed position of a subsequent session whose
computed value is that stale 5 is suppressed (no thumb set, no store update,
no change callback). -/
theorem stale_session_data_counterexample :
    (onPanResponderRelease ⟨true, ⟨true, 5, 50⟩, ⟨2, 8, 0, 10, 1⟩, [0]⟩).1.gesture.lastValue = 5 ∧
    initialGestureState.lastValue = 0 ∧
    (onPanResponderTerminate ⟨true, ⟨true, 5, 50⟩, ⟨2, 8, 0, 10, 1⟩, [0]⟩).1.pressed = true ∧
    (handlePositionChange ⟨true, 100, 10, 0⟩
      (onPanResponderRelease ⟨true, ⟨true, 5, 50⟩, ⟨2, 8, 0, 10, 1⟩, [0]⟩).1.gesture
      ⟨2, 8, 0, 10, 1⟩ 50).valueChanged = none := by
  refine ⟨rfl, rfl, rfl, ?_⟩
  norm_num [onPanResponderRelease, handlePositionChange, computedMoveValue,
    getValueForPosition, clamp, round_eq]

/-- Claim C8, amended: on touch release the state machine returns to Idle
(`pressed` is cleared) and `onSliderTouchEnd(low, high)` fires, but the
ephemeral drag-session data is NOT cleared — `gestureStateRef` keeps the
previous session's `lastValue` and `lastPosition`; a host-initiated gesture
termination performs no state change at all; consequently a subsequent
session's first processed position IS suppressed whenever its computed value
equals the previous session's `lastValue`. -/
theorem release_keeps_session_data (st : CompState) (s : Session) (pos : ℚ) :
    onPanResponderRelease st =
      ({ st with pressed := false }, [CallbackEv.touchEnd st.props.low st.props.high]) ∧
    onPanResponderTerminate st = (st, []) ∧
    (computedMoveValue s st.props pos = st.gesture.lastValue →
      handlePositionChange s (onPanResponderRelease st).1.gesture
        (onPanResponderRelease st).1.props pos =
        ⟨st.gesture, st.props, none, none, none, false⟩) := by
  refine ⟨rfl, rfl, fun h => ?_⟩
  show handlePositionChange s st.gesture st.props pos = _
  unfold handlePositionChange
  rw [if_pos h.symm]

/-- Witness for C8's amended claim at a concrete input. -/
theorem release_keeps_session_data_witness :
    computedMoveValue ⟨true, 100, 10, 0⟩ (⟨5, 8, 0, 10, 1⟩ : InProps) 50 =
      (⟨true, 5, 50⟩ : GestureState).lastValue ∧
    handlePositionChange ⟨true, 100, 10, 0⟩
      (onPanResponderRelease ⟨true, ⟨true, 5, 50⟩, ⟨5, 8, 0, 10, 1⟩, [0]⟩).1.gesture
      (onPanResponderRelease ⟨true, ⟨true, 5, 50⟩, ⟨5, 8, 0, 10, 1⟩, [0]⟩).1.props 50 =
      ⟨⟨true, 5, 50⟩, ⟨5, 8, 0, 10, 1⟩, none, none, none, false⟩ :=
  ⟨by norm_num [computedMoveValue, getValueForPosition, clamp, round_eq],
    (release_keeps_session_data ⟨true, ⟨true, 5, 50⟩, ⟨5, 8, 0, 10, 1⟩, [0]⟩
      ⟨true, 100, 10, 0⟩ 50).2.2
      (by norm_num [computedMoveValue, getValueForPosition, clamp, round_eq])⟩

/-! ## C9: zero layout widths make position operations no-ops -/

/-- Claim C9: whenever `containerWidth` or `thumbWidth` is zero, every
position-dependent operation of `updateThumbs` — thumb position
recomputation, selected-rail update, and the associated `byUser = false`
change notification — is a no-op, and the operations resume having effect
once both widths are positive. -/
theorem updateThumbs_layout_gating (disableRange : Bool)
    (containerWidth thumbWidth : ℚ) (p : InProps) :
    (containerWidth = 0 ∨ thumbWidth = 0 →
      updateThumbs disableRange containerWidth thumbWidth p = ⟨none, none, false, none⟩) ∧
    (0 < containerWidth → 0 < thumbWidth →
      (updateThumbs disableRange containerWidth thumbWidth p).lowThumbX =
        some (positionForValue p.low containerWidth thumbWidth p.min p.max) ∧
      (updateThumbs disableRange containerWidth thumbWidth p).railUpdated = true ∧
      (updateThumbs disableRange containerWidth thumbWidth p).valueChanged =
        some (p.low, p.high, false)) := by
  constructor
  · intro h
    unfold updateThumbs
    rw [if_pos (Or.symm h)]
  · intro hcw htw
    have hno : ¬(thumbWidth = 0 ∨ containerWidth = 0) := by
      rintro (h | h)
      exacts [ne_of_gt htw h, ne_of_gt hcw h]
    unfold updateThumbs
    rw [if_neg hno]
    exact ⟨rfl, rfl, rfl⟩

/-- Witness for C9 at concrete inputs: a no-op at width 0, effects at
positive widths. -/
theorem updateThumbs_layout_gating_witness :
    updateThumbs true 0 10 ⟨2, 8, 0, 10, 1⟩ = ⟨none, none, false, none⟩ ∧
    (updateThumbs true 100 10 ⟨2, 8, 0, 10, 1⟩).railUpdated = true :=
  ⟨(updateThumbs_layout_gating true 0 10 ⟨2, 8, 0, 10, 1⟩).1 (Or.inl rfl),
    ((updateThumbs_layout_gating true 100 10 ⟨2, 8, 0, 10, 1⟩).2
      (by norm_num) (by norm_num)).2.1⟩

/-! ## C10: at most one pointer listener -/

theorem runGrantListeners_eq (evs : List (Bool × ℕ × ℕ)) (ls : List ℕ) :
    runGrantListeners evs ls =
      match lastStartedSession evs with
      | some k => [k]
      | none => ls := by
  induction evs generalizing ls with
  | nil => rfl
  | cons e rest ih =>
    obtain ⟨d, n, sid⟩ := e
    have hstep : runGrantListeners ((d, n, sid) :: rest) ls =
        runGrantListeners rest (grantListeners d n sid ls) := rfl
    rw [hstep, ih]
    cases h : lastStartedSession rest with
    | some k => simp [lastStartedSession, h]
    | none =>
      simp only [lastStartedSession, h]
      cases d with
      | true =>
        have hg : grantListeners true n sid ls = ls := by
          unfold grantListeners
          rw [if_pos rfl]
        rw [hg, if_neg (by simp)]
      | false =>
        by_cases hn : n ≤ 1
        · have hg : grantListeners false n sid ls = [sid] := by
            unfold grantListeners
            rw [if_neg (by simp), if_neg (not_lt.mpr hn)]
            rfl
          rw [hg, if_pos ⟨rfl, hn⟩]
        · have hg : grantListeners false n sid ls = ls := by
            unfold grantListeners
            rw [if_neg (by simp), if_pos (not_le.mp hn)]
          rw [hg, if_neg (by simp [hn])]

/-- Claim C10: at most one pointer-move listener is registered on the shared
`pointerX` stream at any time — every touch-down grant that starts a session
first removes all previously registered listeners and then adds the new
session's listener (`src/index.tsx:283-288`), so after any sequence of grants
the listener set is exactly the most recently started session's listener (or
empty), and in particular each move event is handled by at most one session's
handler.  The first conjunct ties the listener bookkeeping used in the fold
to `onPanResponderGrant` itself. -/
theorem single_pointer_listener (evs : List (Bool × ℕ × ℕ))
    (disabled disableRange : Bool) (minRange containerWidth thumbWidth downX : ℚ)
    (numberActiveTouches sid : ℕ) (st : CompState) :
    (onPanResponderGrant disabled disableRange minRange containerWidth thumbWidth
        downX numberActiveTouches sid st).state.listeners =
      grantListeners disabled numberActiveTouches sid st.listeners ∧
    runGrantListeners evs [] =
      (match lastStartedSession evs with
        | some k => [k]
        | none => []) ∧
    (runGrantListeners evs []).length ≤ 1 := by
  refine ⟨?_, runGrantListeners_eq evs [], ?_⟩
  · unfold onPanResponderGrant grantListeners
    by_cases hd : disabled = true
    · rw [if_pos hd, if_pos hd]
    · rw [if_neg hd, if_neg hd]
      by_cases hn : numberActiveTouches > 1
      · rw [if_pos hn, if_pos hn]
      · rw [if_neg hn, if_neg hn]
  · rw [runGrantListeners_eq evs []]
    cases lastStartedSession evs <;> simp

end RnRangeSlider
